import Mathlib

/-!
Verification of the glib main-context channel (src/main_context_channel.rs).

The Rust source implements a multi-producer channel whose receiver side is a
GSource attached to a glib main context.  We embed the shared channel state
(the data behind the Arc<(Mutex<ChannelInner<T>>, Option<ChannelBound>)>) as a
pure Lean structure and translate each operation of the source into a pure
function on that state.  Condition-variable signals are recorded as events;
blocking waits are embedded by splitting the operations at their wait points
(the caller resumes in a state satisfying the wait loop's exit condition) and,
for the rendezvous interleaving arguments, by an explicit small-step machine
whose labels are the scheduling choices (lock acquisitions and condition
variable wakeups; Rust's Condvar permits spurious wakeups, so a wakeup label
may fire whenever the wait predicate allows the waiter to exit).
-/

/-- ChannelSourceState (lines 23-28): attachment status of the receiver side.
The GSource behind an Attached pointer is modelled by its two observable
fields: whether g_source_is_destroyed reports true, and its ready time. -/
inductive ChannelSourceState
  | NotAttached
  | Attached (destroyed : Bool) (readyTime : Int)
  | Destroyed
deriving DecidableEq

/-- ChannelInner plus the Arc around it (lines 33-37, 83-104): the FIFO queue,
the attachment state, and the Arc strong count of the shared allocation
(one reference per live Channel value: each sender handle plus the receiver
side). The optional bound is the immutable second tuple component and is
passed to each operation separately. -/
structure ChannelState (T : Type) where
  queue : List T
  source : ChannelSourceState
  strong : Nat
deriving DecidableEq

/-- Condition-variable signals emitted by an operation. -/
inductive CondEvent
  | notifyOne
  | notifyAll
deriving DecidableEq

/-- Result payload of std::sync::mpsc::SendError. -/
structure SendError (T : Type) where
  item : T
deriving DecidableEq

/-- std::sync::mpsc::TrySendError. -/
inductive TrySendError (T : Type)
  | Full (t : T)
  | Disconnected (t : T)
deriving DecidableEq

/-- std::sync::mpsc::TryRecvError. -/
inductive TryRecvError
  | Empty
  | Disconnected
deriving DecidableEq

/-- G_SOURCE_CONTINUE / G_SOURCE_REMOVE, the dispatch return values. -/
inductive GSourceResult
  | gContinue
  | gRemove
deriving DecidableEq

/-- ChannelInner::receiver_disconnected (lines 40-54). -/
def receiver_disconnected : ChannelSourceState → Bool
  | ChannelSourceState.Destroyed => true
  | ChannelSourceState.Attached destroyed _ => destroyed
  | ChannelSourceState.NotAttached => false

/-- ChannelInner::set_ready_time (lines 56-62): writes the GSource ready time
when a source is attached (g_source_set_ready_time acts on the GSource even
when it is already destroyed); otherwise does nothing. -/
def set_ready_time (s : ChannelState T) (readyTime : Int) : ChannelState T :=
  match s.source with
  | ChannelSourceState.Attached destroyed _ =>
      { s with source := ChannelSourceState.Attached destroyed readyTime }
  | _ => s

/-- ChannelInner::source (lines 64-74): whether a strong reference to a live
(attached and not destroyed) GSource can be taken. -/
def source_ref : ChannelSourceState → Bool
  | ChannelSourceState.Attached false _ => true
  | _ => false

/-- Channel::try_recv (lines 199-218): pop the front item if any, signalling
notify_one on the capacity condition variable when a bound is configured;
on an empty queue report Disconnected when the Arc strong count is 1
(the receiver holds the only reference) and Empty otherwise. -/
def try_recv (bound : Option Nat) (s : ChannelState T) :
    Except TryRecvError T × ChannelState T × List CondEvent :=
  match s.queue with
  | item :: rest =>
      (Except.ok item, { s with queue := rest },
        if bound.isSome then [CondEvent.notifyOne] else [])
  | [] =>
      if s.strong == 1 then (Except.error TryRecvError.Disconnected, s, [])
      else (Except.error TryRecvError.Empty, s, [])

/-- Channel::send, lines 124-133: the enqueue core executed once the capacity
wait loop (lines 115-122) has exited; for an unbounded channel (bound None,
both if-let blocks skipped) this is the entire body of send (lines 106-153).
Errors leave the state unchanged; otherwise the item is pushed at the back
and the GSource ready time is set to 0. -/
def send_enqueue (s : ChannelState T) (t : T) :
    Except (SendError T) Unit × ChannelState T :=
  if receiver_disconnected s.source then (Except.error ⟨t⟩, s)
  else (Except.ok (), set_ready_time { s with queue := s.queue ++ [t] } 0)

/-- Channel::send, lines 142-150: the rendezvous epilogue executed once the
bound-0 handoff wait loop (lines 137-141) has exited. If the receiver is
now disconnected, whatever item is still at the front of the queue is popped
and returned as the error; otherwise (or when the queue is already empty)
the send reports success. -/
def send_rendezvous_finish (s : ChannelState T) :
    Except (SendError T) Unit × ChannelState T :=
  if receiver_disconnected s.source then
    match s.queue with
    | u :: rest => (Except.error ⟨u⟩, { s with queue := rest })
    | [] => (Except.ok (), s)
  else (Except.ok (), s)

/-- Channel::try_send, lines 156-177: the non-waiting part common to every
bound. Full is reported when the queue length has reached the bound and the
queue is non-empty; only then is disconnection checked; otherwise the item
is enqueued and the GSource woken. Returns the updated state on success. -/
def try_send_enqueue (bound : Nat) (s : ChannelState T) (t : T) :
    Except (TrySendError T) (ChannelState T) :=
  if bound ≤ s.queue.length ∧ s.queue.isEmpty = false then Except.error (TrySendError.Full t)
  else if receiver_disconnected s.source then Except.error (TrySendError.Disconnected t)
  else Except.ok (set_ready_time { s with queue := s.queue ++ [t] } 0)

/-- Channel::try_send at a positive bound (lines 155-197 with the bound == 0
block skipped): exactly the non-waiting checks and enqueue. -/
def try_send_pos (bound : Nat) (s : ChannelState T) (t : T) :
    Except (TrySendError T) Unit × ChannelState T :=
  match try_send_enqueue bound s t with
  | Except.error e => (Except.error e, s)
  | Except.ok s' => (Except.ok (), s')

/-- Sender::drop / SyncSender::drop (lines 337-360, 384-407): take the channel
out of the handle, read whether a live source exists, drop the channel
reference (decrementing the Arc strong count in every path), and, when a live
source exists, set its ready time to 0 to wake the receiver. -/
def sender_drop (s : ChannelState T) : ChannelState T :=
  if source_ref s.source then
    set_ready_time { s with strong := s.strong - 1 } 0
  else
    { s with strong := s.strong - 1 }

/-- check (lines 245-253): the source is ready exactly when its ready time was
set to 0. The GSource only exists while attached; check is never invoked
otherwise, so those cases answer false. -/
def check (s : ChannelState T) : Bool :=
  match s.source with
  | ChannelSourceState.Attached _ readyTime => readyTime == 0
  | _ => false

/-- finalize (lines 298-318): mark the channel Destroyed under the lock, wake
all blocked producers when a bound (hence a condition variable) exists, and
drop the GSource's channel reference (decrementing the Arc strong count). -/
def finalize_teardown (bound : Option Nat) (s : ChannelState T) :
    ChannelState T × List CondEvent :=
  ({ s with source := ChannelSourceState.Destroyed, strong := s.strong - 1 },
    if bound.isSome then [CondEvent.notifyAll] else [])

/-- Receiver::drop for a receiver that was never attached (lines 424-435):
mark the channel Destroyed, wake all blocked producers when a condition
variable exists, and drop the receiver's channel reference. -/
def receiver_drop (bound : Option Nat) (s : ChannelState T) :
    ChannelState T × List CondEvent :=
  ({ s with source := ChannelSourceState.Destroyed, strong := s.strong - 1 },
    if bound.isSome then [CondEvent.notifyAll] else [])

/-- Receiver::attach (lines 447-510): record the attaching thread's id, set
the initial ready time to 0 when the queue is already non-empty or no sender
is left (strong count 1), and assert that the calling thread owns the target
main context (panic, embedded as none, otherwise). -/
def attach (isOwner : Bool) (threadId : Nat) (s : ChannelState T) :
    Option (ChannelState T × Nat) :=
  let ready : Int := if s.queue.isEmpty = false ∨ s.strong == 1 then 0 else -1
  let s' := { s with source := ChannelSourceState.Attached false ready }
  if isOwner then some (s', threadId) else none

/-- dispatch's drain loop (lines 279-293): repeatedly call try_recv, feeding
each received item to the callback, until try_recv reports Empty
(G_SOURCE_CONTINUE), try_recv reports Disconnected (G_SOURCE_REMOVE), or the
callback returns Continue(false) (G_SOURCE_REMOVE). The third component
records the items passed to the callback, in order. -/
def dispatch_drain (bound : Option Nat) (cb : T → Bool) (s : ChannelState T) :
    GSourceResult × ChannelState T × List T :=
  match h : try_recv bound s with
  | (Except.error TryRecvError.Empty, s', _) => (GSourceResult.gContinue, s', [])
  | (Except.error TryRecvError.Disconnected, s', _) => (GSourceResult.gRemove, s', [])
  | (Except.ok item, s', _) =>
      if cb item then
        let r := dispatch_drain bound cb s'
        (r.1, r.2.1, item :: r.2.2)
      else (GSourceResult.gRemove, s', [item])
termination_by s.queue.length
decreasing_by
  cases hq : s.queue with
  | nil => simp [try_recv, hq] at h; split at h <;> simp at h
  | cons x rest =>
      simp [try_recv, hq] at h
      cases h with
      | intro h1 h2 =>
          cases h2 with
          | intro h2 h3 => rw [← h2]; simp

/-- dispatch (lines 255-296): clear the ready time to -1, then assert that
the current thread is the thread recorded at attach time (a failed assertion
panics; the panic is embedded as the error case, carrying the state as
already mutated by the ready-time write that precedes the assertion), then
drain the channel. -/
def dispatch (currentThread threadId : Nat) (bound : Option Nat) (cb : T → Bool)
    (s : ChannelState T) :
    Except (ChannelState T) (GSourceResult × ChannelState T × List T) :=
  let s1 := set_ready_time s (-1)
  if currentThread == threadId then Except.ok (dispatch_drain bound cb s1)
  else Except.error s1

/-!
Interleaving machine for blocking rendezvous sends (Channel::send specialised
at bound 0, lines 106-153, together with the consumer-side try_recv and the
teardown paths). Each producer thread executing send(t) is represented by the
program point it has reached; a scheduling label picks which thread runs its
next atomic (lock-protected) section. A waiting thread may only resume when
the predicate of its wait loop has become false, which under-approximates
nothing: Rust condition variables allow spurious wakeups, so every trace of
this machine is a possible execution of the source.
-/

deriving instance DecidableEq for Except

/-- Program points of a thread running the blocking rendezvous send. -/
inductive SenderPhase (T : Type)
  | start (t : T)
  | waitSpace (t : T)
  | waitHandoff (t : T)
  | done (r : Except (SendError T) Unit)
deriving DecidableEq

/-- Global state of the rendezvous machine: the shared channel plus the
program point of every producer thread. -/
structure MState (T : Type) where
  chan : ChannelState T
  senders : List (SenderPhase T)
deriving DecidableEq

/-- Scheduling labels: a sender acquires the lock for the first time, a
sender resumes from one of the two wait loops, the dispatch loop pops one
item via try_recv, or the receiver side is torn down. -/
inductive MLabel
  | enter (i : Nat)
  | wakeSpace (i : Nat)
  | wakeHandoff (i : Nat)
  | recv
  | disconnect
deriving DecidableEq

/-- Lines 142-152 as run by one sender: the handoff wait loop has exited and
the sender finishes, turning the outcome into its final program point. -/
def handoff_exit (c : ChannelState T) : SenderPhase T × ChannelState T :=
  match send_rendezvous_finish c with
  | (Except.error e, c') => (SenderPhase.done (Except.error e), c')
  | (Except.ok _, c') => (SenderPhase.done (Except.ok ()), c')

/-- Lines 124-141 at bound 0, run when the capacity wait loop's guard is
false: error out if the receiver is disconnected, otherwise enqueue the item,
wake the GSource, and enter the handoff wait loop unless its guard is already
false (in which case lines 142-152 run at once). -/
def after_capacity_wait (c : ChannelState T) (t : T) :
    SenderPhase T × ChannelState T :=
  match send_enqueue c t with
  | (Except.error e, c') => (SenderPhase.done (Except.error e), c')
  | (Except.ok _, c') =>
      if c'.queue.isEmpty = false ∧ receiver_disconnected c'.source = false then
        (SenderPhase.waitHandoff t, c')
      else handoff_exit c'

/-- One scheduling step of the rendezvous machine. The guard of the capacity
wait loop at bound 0 (lines 116-118: queue.len() >= 0 && !queue.is_empty()
&& !receiver_disconnected()) reduces to: queue non-empty and receiver
connected. A step returns none when the label is not enabled. -/
def rstep (l : MLabel) (m : MState T) : Option (MState T) :=
  match l with
  | MLabel.enter i =>
      match m.senders.get? i with
      | some (SenderPhase.start t) =>
          if m.chan.queue.isEmpty = false ∧ receiver_disconnected m.chan.source = false then
            some { m with senders := m.senders.set i (SenderPhase.waitSpace t) }
          else
            let p := after_capacity_wait m.chan t
            some { chan := p.2, senders := m.senders.set i p.1 }
      | _ => none
  | MLabel.wakeSpace i =>
      match m.senders.get? i with
      | some (SenderPhase.waitSpace t) =>
          if m.chan.queue.isEmpty = false ∧ receiver_disconnected m.chan.source = false then
            none
          else
            let p := after_capacity_wait m.chan t
            some { chan := p.2, senders := m.senders.set i p.1 }
      | _ => none
  | MLabel.wakeHandoff i =>
      match m.senders.get? i with
      | some (SenderPhase.waitHandoff _) =>
          if m.chan.queue.isEmpty = false ∧ receiver_disconnected m.chan.source = false then
            none
          else
            let p := handoff_exit m.chan
            some { chan := p.2, senders := m.senders.set i p.1 }
      | _ => none
  | MLabel.recv =>
      match try_recv (some 0) m.chan with
      | (Except.ok _, c', _) => some { m with chan := c' }
      | _ => none
  | MLabel.disconnect =>
      some { m with chan :=
        { m.chan with source := ChannelSourceState.Destroyed, strong := m.chan.strong - 1 } }

/-- Run a list of scheduling labels from an initial machine state. -/
def mrun (ls : List MLabel) (m : MState T) : Option (MState T) :=
  match ls with
  | [] => some m
  | l :: rest =>
      match rstep l m with
      | some m' => mrun rest m'
      | none => none

/-- Rendezvous attribution invariant for a machine with a single producer
thread: whenever that producer is parked in the handoff wait loop for item t,
the queue is either already drained or still holds exactly that item. -/
def ownInv (m : MState T) : Prop :=
  ∀ t, m.senders = [SenderPhase.waitHandoff t] →
    (m.chan.queue = [] ∨ m.chan.queue = [t])

lemma isEmpty_eq_false_iff (l : List α) : l.isEmpty = false ↔ l ≠ [] := by
  cases l <;> simp

@[simp]
lemma set_ready_time_queue (s : ChannelState T) (r : Int) :
    (set_ready_time s r).queue = s.queue := by
  unfold set_ready_time; split <;> rfl

@[simp]
lemma set_ready_time_strong (s : ChannelState T) (r : Int) :
    (set_ready_time s r).strong = s.strong := by
  unfold set_ready_time; split <;> rfl

/-- C2: try_recv removes and returns the front item when the queue is
non-empty, signalling notify_one exactly when a bound is configured; on an
empty queue it returns Disconnected when the Arc strong count is 1 (the
receiver holds the only remaining reference) and Empty otherwise, leaving
the state unchanged. -/
theorem try_recv_spec {T : Type} (bound : Option Nat) (s : ChannelState T) :
    (∀ x rest, s.queue = x :: rest →
      try_recv bound s = (Except.ok x, { s with queue := rest },
        if bound.isSome then [CondEvent.notifyOne] else []))
    ∧ (s.queue = [] → s.strong = 1 →
      try_recv bound s = (Except.error TryRecvError.Disconnected, s, []))
    ∧ (s.queue = [] → s.strong ≠ 1 →
      try_recv bound s = (Except.error TryRecvError.Empty, s, [])) := by
  refine ⟨?_, ?_, ?_⟩
  · intro x rest h
    simp [try_recv, h]
  · intro h hstrong
    simp [try_recv, h, hstrong]
  · intro h hstrong
    simp [try_recv, h, hstrong]

theorem try_recv_spec_witness :
    try_recv (some 2) (⟨[4, 5], ChannelSourceState.NotAttached, 2⟩ : ChannelState Nat) =
      (Except.ok 4, ⟨[5], ChannelSourceState.NotAttached, 2⟩, [CondEvent.notifyOne])
    ∧ try_recv none (⟨[], ChannelSourceState.NotAttached, 1⟩ : ChannelState Nat) =
      (Except.error TryRecvError.Disconnected, ⟨[], ChannelSourceState.NotAttached, 1⟩, [])
    ∧ try_recv none (⟨[], ChannelSourceState.NotAttached, 3⟩ : ChannelState Nat) =
      (Except.error TryRecvError.Empty, ⟨[], ChannelSourceState.NotAttached, 3⟩, []) :=
  ⟨(try_recv_spec (some 2) _).1 4 [5] rfl,
   (try_recv_spec none _).2.1 rfl rfl,
   (try_recv_spec none _).2.2 rfl (by decide)⟩

/-- C3: an unbounded send (whose body is send_enqueue since both bound
blocks are skipped) appends the item at the back of the queue and succeeds
whenever the receiver is not disconnected, and fails with SendError carrying
the very item, leaving the state untouched, when the receiver is
disconnected; being disconnected means the attachment is Destroyed or the
attached source was already destroyed by the loop. -/
theorem send_unbounded_spec {T : Type} (s : ChannelState T) (t : T) :
    (receiver_disconnected s.source = false →
      (send_enqueue s t).1 = Except.ok ()
      ∧ (send_enqueue s t).2.queue = s.queue ++ [t]
      ∧ (send_enqueue s t).2.strong = s.strong)
    ∧ (receiver_disconnected s.source = true →
      send_enqueue s t = (Except.error ⟨t⟩, s))
    ∧ (receiver_disconnected s.source = true ↔
      s.source = ChannelSourceState.Destroyed
      ∨ ∃ r, s.source = ChannelSourceState.Attached true r) := by
  refine ⟨?_, ?_, ?_⟩
  · intro h
    simp [send_enqueue, h]
  · intro h
    simp [send_enqueue, h]
  · cases hsrc : s.source with
    | NotAttached => simp [receiver_disconnected]
    | Attached d r => cases d <;> simp [receiver_disconnected]
    | Destroyed => simp [receiver_disconnected]

theorem send_unbounded_spec_witness :
    (send_enqueue (⟨[7], ChannelSourceState.NotAttached, 2⟩ : ChannelState Nat) 9).2.queue = [7, 9]
    ∧ send_enqueue (⟨[7], ChannelSourceState.Destroyed, 2⟩ : ChannelState Nat) 9 =
      (Except.error ⟨9⟩, ⟨[7], ChannelSourceState.Destroyed, 2⟩) :=
  ⟨((send_unbounded_spec ⟨[7], ChannelSourceState.NotAttached, 2⟩ 9).1 (by decide)).2.1,
   (send_unbounded_spec ⟨[7], ChannelSourceState.Destroyed, 2⟩ 9).2.1 (by decide)⟩

/-- C5 counterexample: a bounded channel with bound 1 whose queue holds one
item and whose receiver is already gone (attachment Destroyed). The claim
says a try_send then reports the distinct Disconnected outcome because the
consumer is gone; the code checks saturation first and reports Full. -/
theorem try_send_full_vs_disconnected_counterexample :
    try_send_pos 1 (⟨[9], ChannelSourceState.Destroyed, 2⟩ : ChannelState Nat) 4 =
      (Except.error (TrySendError.Full 4), ⟨[9], ChannelSourceState.Destroyed, 2⟩)
    ∧ receiver_disconnected (ChannelSourceState.Destroyed) = true
    ∧ (TrySendError.Full (4 : Nat)) ≠ TrySendError.Disconnected 4 := by
  decide

/-- C5 amended: for a bounded channel with positive bound, try_send reports
Full whenever the queue is saturated, even when the receiver is also
disconnected (the capacity check precedes the disconnection check); it
reports Disconnected when the queue is not saturated and the consumer is
gone; otherwise it enqueues the item at the back and wakes the source. -/
theorem try_send_spec {T : Type} (bound : Nat) (s : ChannelState T) (t : T)
    (hb : 1 ≤ bound) :
    (bound ≤ s.queue.length ∧ s.queue ≠ [] →
      try_send_pos bound s t = (Except.error (TrySendError.Full t), s))
    ∧ (¬(bound ≤ s.queue.length ∧ s.queue ≠ []) →
        receiver_disconnected s.source = true →
      try_send_pos bound s t = (Except.error (TrySendError.Disconnected t), s))
    ∧ (¬(bound ≤ s.queue.length ∧ s.queue ≠ []) →
        receiver_disconnected s.source = false →
      try_send_pos bound s t =
        (Except.ok (), set_ready_time { s with queue := s.queue ++ [t] } 0)) := by
  refine ⟨?_, ?_, ?_⟩
  · intro h
    have hfull : bound ≤ s.queue.length ∧ s.queue.isEmpty = false :=
      ⟨h.1, (isEmpty_eq_false_iff s.queue).mpr h.2⟩
    simp only [try_send_pos, try_send_enqueue]
    rw [if_pos hfull]
  · intro h hd
    have hfull : ¬(bound ≤ s.queue.length ∧ s.queue.isEmpty = false) := by
      intro hc
      exact h ⟨hc.1, (isEmpty_eq_false_iff s.queue).mp hc.2⟩
    simp only [try_send_pos, try_send_enqueue]
    rw [if_neg hfull, if_pos hd]
  · intro h hd
    have hfull : ¬(bound ≤ s.queue.length ∧ s.queue.isEmpty = false) := by
      intro hc
      exact h ⟨hc.1, (isEmpty_eq_false_iff s.queue).mp hc.2⟩
    simp only [try_send_pos, try_send_enqueue]
    rw [if_neg hfull, if_neg (by simp [hd])]

theorem try_send_spec_witness :
    try_send_pos 2 (⟨[3, 4], ChannelSourceState.NotAttached, 2⟩ : ChannelState Nat) 5 =
      (Except.error (TrySendError.Full 5), ⟨[3, 4], ChannelSourceState.NotAttached, 2⟩)
    ∧ try_send_pos 2 (⟨[3], ChannelSourceState.Destroyed, 2⟩ : ChannelState Nat) 5 =
      (Except.error (TrySendError.Disconnected 5), ⟨[3], ChannelSourceState.Destroyed, 2⟩)
    ∧ try_send_pos 2 (⟨[3], ChannelSourceState.NotAttached, 2⟩ : ChannelState Nat) 5 =
      (Except.ok (), ⟨[3, 5], ChannelSourceState.NotAttached, 2⟩) := by
  refine ⟨?_, ?_, ?_⟩
  · exact (try_send_spec 2 _ 5 (by decide)).1 (by decide)
  · exact (try_send_spec 2 _ 5 (by decide)).2.1 (by decide) (by decide)
  · have h := (try_send_spec 2 (⟨[3], ChannelSourceState.NotAttached, 2⟩ : ChannelState Nat) 5
      (by decide)).2.2 (by decide) (by decide)
    simpa [set_ready_time] using h

/-- C7: dropping a never-attached Receiver is the very same state
transformation as the finalize path of an attached source: both mark the
attachment Destroyed, emit notify_all exactly when a capacity condition
variable exists, and drop one strong reference; consequently any later send
observes disconnection identically after either path. -/
theorem receiver_drop_finalize_equiv {T : Type} (bound : Option Nat)
    (s : ChannelState T) :
    receiver_drop bound s = finalize_teardown bound s
    ∧ receiver_disconnected (finalize_teardown bound s).1.source = true
    ∧ (finalize_teardown bound s).2 =
        (if bound.isSome then [CondEvent.notifyAll] else [])
    ∧ (∀ t : T, send_enqueue (finalize_teardown bound s).1 t =
        (Except.error ⟨t⟩, (finalize_teardown bound s).1)) := by
  refine ⟨rfl, rfl, rfl, ?_⟩
  intro t
  simp [send_enqueue, finalize_teardown, receiver_disconnected]

theorem receiver_drop_finalize_equiv_witness :
    receiver_drop (some 2) (⟨[8], ChannelSourceState.NotAttached, 3⟩ : ChannelState Nat) =
      finalize_teardown (some 2) ⟨[8], ChannelSourceState.NotAttached, 3⟩
    ∧ send_enqueue (⟨[8], ChannelSourceState.Destroyed, 2⟩ : ChannelState Nat) 5 =
      (Except.error ⟨5⟩, ⟨[8], ChannelSourceState.Destroyed, 2⟩) :=
  ⟨(receiver_drop_finalize_equiv (some 2) ⟨[8], ChannelSourceState.NotAttached, 3⟩).1,
   (receiver_drop_finalize_equiv (some 2) ⟨[8], ChannelSourceState.NotAttached, 3⟩).2.2.2 5⟩

/-- C8: dispatch fails fatally (the embedded panic, carrying no result) if
and only if the current thread differs from the thread recorded at attach
time, and attach fails fatally if and only if the calling thread does not
own the target main context. -/
theorem thread_affinity_fatal {T : Type} (ct tid : Nat) (bound : Option Nat)
    (cb : T → Bool) (s : ChannelState T) (isOwner : Bool) (tid2 : Nat)
    (s2 : ChannelState T) :
    ((∃ e, dispatch ct tid bound cb s = Except.error e) ↔ ct ≠ tid)
    ∧ (attach isOwner tid2 s2 = none ↔ isOwner = false) := by
  constructor
  · unfold dispatch
    rcases h : ct == tid with _ | _
    · simp_all
    · simp_all
  · unfold attach
    cases isOwner <;> simp

theorem thread_affinity_fatal_witness :
    (∃ e, dispatch 5 6 none (fun (_ : Nat) => true)
      ⟨[], ChannelSourceState.NotAttached, 2⟩ = Except.error e)
    ∧ attach false 6 (⟨[], ChannelSourceState.NotAttached, 2⟩ : ChannelState Nat) = none :=
  ⟨(thread_affinity_fatal 5 6 none (fun (_ : Nat) => true)
      ⟨[], ChannelSourceState.NotAttached, 2⟩ false 6
      ⟨[], ChannelSourceState.NotAttached, 2⟩).1.mpr (by decide),
   (thread_affinity_fatal 5 6 none (fun (_ : Nat) => true)
      ⟨[], ChannelSourceState.NotAttached, 2⟩ false 6
      ⟨[], ChannelSourceState.NotAttached, 2⟩).2.mpr rfl⟩

/-- C9: for a bounded channel with positive limit, queue.len() ≤ limit is
preserved by try_send (which refuses with Full instead of enqueueing beyond
the bound) and by the enqueue a blocking send performs once its capacity
wait loop has exited (the loop waits while the queue length is at least the
bound, the queue is non-empty and the receiver is connected). -/
theorem bounded_capacity_invariant {T : Type} (bound : Nat) (s : ChannelState T)
    (t : T) (hb : 1 ≤ bound) (hlen : s.queue.length ≤ bound) :
    (try_send_pos bound s t).2.queue.length ≤ bound
    ∧ (¬(bound ≤ s.queue.length ∧ s.queue ≠ []
          ∧ receiver_disconnected s.source = false) →
        (send_enqueue s t).2.queue.length ≤ bound) := by
  constructor
  · by_cases hfull : bound ≤ s.queue.length ∧ s.queue.isEmpty = false
    · simp only [try_send_pos, try_send_enqueue]
      rw [if_pos hfull]
      simpa using hlen
    · by_cases hd : receiver_disconnected s.source = true
      · simp only [try_send_pos, try_send_enqueue]
        rw [if_neg hfull, if_pos hd]
        simpa using hlen
      · simp only [try_send_pos, try_send_enqueue]
        rw [if_neg hfull, if_neg hd]
        simp only [set_ready_time_queue, List.length_append, List.length_cons,
          List.length_nil]
        rcases not_and_or.mp hfull with h | h
        · omega
        · have hq : s.queue = [] := by
            rcases hq2 : s.queue.isEmpty with _ | _
            · exact absurd hq2 h
            · exact List.isEmpty_iff.mp hq2
          simp [hq]
          omega
  · intro hwait
    by_cases hd : receiver_disconnected s.source = true
    · simp [send_enqueue, hd]
      simpa using hlen
    · simp only [Bool.not_eq_true] at hd
      simp [send_enqueue, hd]
      rcases not_and_or.mp hwait with h | h
      · omega
      · rcases not_and_or.mp h with h2 | h2
        · have hq : s.queue = [] := not_not.mp h2
          simp [hq]
          omega
        · exact absurd hd h2

lemma dispatch_drain_all {T : Type} (bound : Option Nat) (cb : T → Bool) :
    ∀ (q : List T) (s : ChannelState T), s.queue = q → (∀ x ∈ q, cb x = true) →
      dispatch_drain bound cb s =
        ((if s.strong = 1 then GSourceResult.gRemove else GSourceResult.gContinue),
          { s with queue := [] }, q) := by
  intro q
  induction q with
  | nil =>
      intro s hq _
      obtain ⟨q, src, n⟩ := s
      replace hq : q = [] := hq
      subst hq
      rw [dispatch_drain]
      by_cases hn : n = 1
      · have htr : try_recv bound (⟨[], src, n⟩ : ChannelState T) =
            (Except.error TryRecvError.Disconnected, ⟨[], src, n⟩, []) := by
          simp [try_recv, hn]
        split <;> simp_all
      · have htr : try_recv bound (⟨[], src, n⟩ : ChannelState T) =
            (Except.error TryRecvError.Empty, ⟨[], src, n⟩, []) := by
          simp [try_recv, hn]
        split <;> simp_all
  | cons x rest ih =>
      intro s hq hall
      obtain ⟨q, src, n⟩ := s
      replace hq : q = x :: rest := hq
      subst hq
      rw [dispatch_drain]
      have htr : try_recv bound (⟨x :: rest, src, n⟩ : ChannelState T) =
          (Except.ok x, ⟨rest, src, n⟩,
            if bound.isSome then [CondEvent.notifyOne] else []) := by
        simp [try_recv]
      have hx : cb x = true := hall x (by simp)
      have ihs := ih (⟨rest, src, n⟩ : ChannelState T) rfl
        (fun y hy => hall y (by simp [hy]))
      split <;> simp_all

lemma dispatch_drain_stop {T : Type} (bound : Option Nat) (cb : T → Bool) :
    ∀ (a : List T) (x : T) (r : List T) (s : ChannelState T),
      s.queue = a ++ x :: r → (∀ y ∈ a, cb y = true) → cb x = false →
      dispatch_drain bound cb s =
        (GSourceResult.gRemove, { s with queue := r }, a ++ [x]) := by
  intro a
  induction a with
  | nil =>
      intro x r s hq _ hx
      obtain ⟨q, src, n⟩ := s
      replace hq : q = [] ++ x :: r := hq
      simp only [List.nil_append] at hq
      subst hq
      rw [dispatch_drain]
      have htr : try_recv bound (⟨x :: r, src, n⟩ : ChannelState T) =
          (Except.ok x, ⟨r, src, n⟩,
            if bound.isSome then [CondEvent.notifyOne] else []) := by
        simp [try_recv]
      split <;> simp_all
  | cons y rest ih =>
      intro x r s hq hall hx
      obtain ⟨q, src, n⟩ := s
      replace hq : q = (y :: rest) ++ x :: r := hq
      simp only [List.cons_append] at hq
      subst hq
      rw [dispatch_drain]
      have htr : try_recv bound (⟨y :: (rest ++ x :: r), src, n⟩ : ChannelState T) =
          (Except.ok y, ⟨rest ++ x :: r, src, n⟩,
            if bound.isSome then [CondEvent.notifyOne] else []) := by
        simp [try_recv]
      have hy : cb y = true := hall y (by simp)
      have ihs := ih x r (⟨rest ++ x :: r, src, n⟩ : ChannelState T) rfl
        (fun z hz => hall z (by simp [hz])) hx
      split <;> simp_all

/-- C1 counterexample: dispatch invoked on thread 1 for a source attached on
thread 2 with its ready time at 0. The claim says dispatch first asserts the
thread identity and only then clears the readiness marker, so the failed
assertion would leave the marker untouched at 0; the code clears the marker
to -1 (line 263) before the thread assertion (lines 266-270), so the state
carried by the panic already has ready time -1. -/
theorem dispatch_order_counterexample :
    dispatch 1 2 none (fun (_ : Nat) => true)
      ⟨[5], ChannelSourceState.Attached false 0, 2⟩ =
      Except.error ⟨[5], ChannelSourceState.Attached false (-1), 2⟩
    ∧ (ChannelSourceState.Attached false (-1)) ≠ ChannelSourceState.Attached false 0 := by
  decide

/-- C1 amended: dispatch first clears the readiness marker to idle (ready
time -1), then asserts that the current thread equals the thread recorded at
attach time (panicking on mismatch, with the marker already cleared), and
then repeatedly calls try_recv, passing each received item to the callback:
if every item is accepted, the whole queue is delivered and the result is
G_SOURCE_CONTINUE on Empty (producers remain) or G_SOURCE_REMOVE on
Disconnected (strong count 1); if the callback rejects an item, dispatch
returns G_SOURCE_REMOVE at once, leaving the rest of the queue in place. -/
theorem dispatch_spec {T : Type} (ct tid : Nat) (bound : Option Nat)
    (cb : T → Bool) (s : ChannelState T) :
    (ct ≠ tid → dispatch ct tid bound cb s = Except.error (set_ready_time s (-1)))
    ∧ (ct = tid → (∀ x ∈ s.queue, cb x = true) →
        dispatch ct tid bound cb s = Except.ok
          ((if s.strong = 1 then GSourceResult.gRemove else GSourceResult.gContinue),
            { set_ready_time s (-1) with queue := [] }, s.queue))
    ∧ (ct = tid → ∀ a x r, s.queue = a ++ x :: r → (∀ y ∈ a, cb y = true) →
        cb x = false →
        dispatch ct tid bound cb s = Except.ok
          (GSourceResult.gRemove, { set_ready_time s (-1) with queue := r },
            a ++ [x])) := by
  refine ⟨?_, ?_, ?_⟩
  · intro h
    have hne : (ct == tid) = false := by simp [h]
    simp [dispatch, hne]
  · intro h hall
    have heq : (ct == tid) = true := by simp [h]
    simp only [dispatch, heq, if_pos]
    rw [dispatch_drain_all bound cb s.queue (set_ready_time s (-1)) (by simp)
      (by simpa using hall)]
    simp
  · intro h a x r hq hall hx
    have heq : (ct == tid) = true := by simp [h]
    simp only [dispatch, heq, if_pos]
    rw [dispatch_drain_stop bound cb a x r (set_ready_time s (-1)) (by simp [hq])
      hall hx]

theorem dispatch_spec_witness :
    dispatch 7 7 none (fun (_ : Nat) => true)
      ⟨[4, 6], ChannelSourceState.Attached false 0, 3⟩ =
      Except.ok (GSourceResult.gContinue,
        ⟨[], ChannelSourceState.Attached false (-1), 3⟩, [4, 6])
    ∧ dispatch 7 7 none (fun (x : Nat) => decide (x < 2))
      ⟨[0, 5, 9], ChannelSourceState.Attached false 0, 2⟩ =
      Except.ok (GSourceResult.gRemove,
        ⟨[9], ChannelSourceState.Attached false (-1), 2⟩, [0, 5])
    ∧ dispatch 7 7 none (fun (_ : Nat) => true)
      ⟨[], ChannelSourceState.Attached false 0, 1⟩ =
      Except.ok (GSourceResult.gRemove,
        ⟨[], ChannelSourceState.Attached false (-1), 1⟩, []) := by
  refine ⟨?_, ?_, ?_⟩
  · have h := (dispatch_spec 7 7 none (fun (_ : Nat) => true)
      ⟨[4, 6], ChannelSourceState.Attached false 0, 3⟩).2.1 rfl (by decide)
    simpa [set_ready_time] using h
  · have h := (dispatch_spec 7 7 none (fun (x : Nat) => decide (x < 2))
      ⟨[0, 5, 9], ChannelSourceState.Attached false 0, 2⟩).2.2 rfl [0] 5 [9]
      (by decide) (by decide) (by decide)
    simpa [set_ready_time] using h
  · have h := (dispatch_spec 7 7 none (fun (_ : Nat) => true)
      ⟨[], ChannelSourceState.Attached false 0, 1⟩).2.1 rfl (by decide)
    simpa [set_ready_time] using h

/-- C6 counterexample: a channel attached and idle after dispatch (ready
time -1), empty queue, strong count 3 (two senders plus the source's own
reference). Dropping one Sender clone is neither a push nor a disconnection
(a producer remains: the strong count stays above 1, and the attachment is
alive), yet the code sets the ready time to 0, so the readiness query
reports ready. -/
theorem sender_drop_counterexample :
    sender_drop (⟨[], ChannelSourceState.Attached false (-1), 3⟩ : ChannelState Nat) =
      ⟨[], ChannelSourceState.Attached false 0, 2⟩
    ∧ check (⟨[], ChannelSourceState.Attached false 0, 2⟩ : ChannelState Nat) = true
    ∧ check (⟨[], ChannelSourceState.Attached false (-1), 3⟩ : ChannelState Nat) = false
    ∧ receiver_disconnected (ChannelSourceState.Attached false 0) = false
    ∧ (try_recv none (⟨[], ChannelSourceState.Attached false 0, 2⟩ : ChannelState Nat)).1 =
        Except.error TryRecvError.Empty := by
  decide

/-- C6 amended: dropping any Sender clone while a live attached source
exists sets the readiness marker to immediate even when it is not the last
producer reference (the ensuing dispatch merely observes Empty and keeps the
source registered); when no live source exists the drop only releases the
reference; and absent any operation after dispatch cleared the marker to -1
the readiness query reports not ready. -/
theorem sender_drop_spec {T : Type} (s : ChannelState T) :
    (∀ r : Int, s.source = ChannelSourceState.Attached false r →
      sender_drop s =
        { s with strong := s.strong - 1, source := ChannelSourceState.Attached false 0 })
    ∧ (source_ref s.source = false →
        sender_drop s = { s with strong := s.strong - 1 })
    ∧ (∀ d : Bool, s.source = ChannelSourceState.Attached d (-1) →
        check s = false) := by
  refine ⟨?_, ?_, ?_⟩
  · intro r hr
    simp [sender_drop, source_ref, hr, set_ready_time]
  · intro h
    simp [sender_drop, h]
  · intro d hd
    simp [check, hd]

theorem sender_drop_spec_witness :
    sender_drop (⟨[7], ChannelSourceState.Attached false (-1), 4⟩ : ChannelState Nat) =
      ⟨[7], ChannelSourceState.Attached false 0, 3⟩
    ∧ sender_drop (⟨[7], ChannelSourceState.Destroyed, 4⟩ : ChannelState Nat) =
      ⟨[7], ChannelSourceState.Destroyed, 3⟩
    ∧ check (⟨[7], ChannelSourceState.Attached false (-1), 4⟩ : ChannelState Nat) = false := by
  refine ⟨?_, ?_, ?_⟩
  · exact (sender_drop_spec ⟨[7], ChannelSourceState.Attached false (-1), 4⟩).1
      (-1) rfl
  · exact (sender_drop_spec ⟨[7], ChannelSourceState.Destroyed, 4⟩).2.1 (by decide)
  · exact (sender_drop_spec ⟨[7], ChannelSourceState.Attached false (-1), 4⟩).2.2
      false rfl

theorem bounded_capacity_invariant_witness :
    1 ≤ 2 ∧ ([3, 4] : List Nat).length ≤ 2
    ∧ (try_send_pos 2 (⟨[3, 4], ChannelSourceState.NotAttached, 2⟩ : ChannelState Nat) 5).2.queue.length ≤ 2
    ∧ (send_enqueue (⟨[3], ChannelSourceState.NotAttached, 2⟩ : ChannelState Nat) 5).2.queue.length ≤ 2 :=
  ⟨by decide, by decide,
   (bounded_capacity_invariant 2 ⟨[3, 4], ChannelSourceState.NotAttached, 2⟩ 5
      (by decide) (by decide)).1,
   (bounded_capacity_invariant 2 ⟨[3], ChannelSourceState.NotAttached, 2⟩ 5
      (by decide) (by decide)).2 (by decide)⟩

@[simp]
lemma set_ready_time_disconnected (s : ChannelState T) (r : Int) :
    receiver_disconnected (set_ready_time s r).source =
      receiver_disconnected s.source := by
  cases hsrc : s.source <;> simp [set_ready_time, receiver_disconnected, hsrc]

/-- C4 counterexample: two producers A (item 1) and B (item 2) on a
rendezvous channel whose receiver is never attached. A enqueues 1 and parks
in the handoff wait; the consumer pops 1 (A's item is removed); B enqueues 2
and parks; the receiver is dropped; A wakes, observes disconnection, pops
the front item and fails. A's item had already been removed by the consumer
before disconnection was noticed, yet A's send does not return Ok: it
returns Err carrying 2. -/
theorem rendezvous_send_counterexample :
    mrun [MLabel.enter 0, MLabel.recv, MLabel.enter 1, MLabel.disconnect,
        MLabel.wakeHandoff 0]
      ⟨⟨[], ChannelSourceState.NotAttached, 3⟩,
        [SenderPhase.start 1, SenderPhase.start 2]⟩ =
      some ⟨⟨[], ChannelSourceState.Destroyed, 2⟩,
        [SenderPhase.done (Except.error ⟨2⟩), SenderPhase.waitHandoff 2]⟩
    ∧ (SenderPhase.done (Except.error ⟨(2 : Nat)⟩)) ≠
        SenderPhase.done (Except.ok ()) := by
  decide

/-- C4 amended: once the handoff wait loop of a rendezvous send for item t
has exited (queue empty or receiver disconnected), the send returns Err
carrying the front item of the queue when disconnection is observed with a
non-empty queue — in particular Err carrying t itself when t is still
queued — and Ok when the queue is empty or no disconnection is observed;
with concurrent producers the front item may be another producer's, so an
observed disconnection with a non-empty queue yields an error even when the
caller's own item was already consumed. -/
theorem rendezvous_send_finish_spec {T : Type} (s : ChannelState T) (t : T)
    (hexit : s.queue = [] ∨ receiver_disconnected s.source = true) :
    (receiver_disconnected s.source = true →
      (s.queue = [t] →
        send_rendezvous_finish s = (Except.error ⟨t⟩, { s with queue := [] }))
      ∧ (∀ u rest, s.queue = u :: rest →
          send_rendezvous_finish s = (Except.error ⟨u⟩, { s with queue := rest }))
      ∧ (s.queue = [] → send_rendezvous_finish s = (Except.ok (), s)))
    ∧ (receiver_disconnected s.source = false →
        send_rendezvous_finish s = (Except.ok (), s)) := by
  constructor
  · intro hd
    refine ⟨?_, ?_, ?_⟩
    · intro hq
      simp [send_rendezvous_finish, hd, hq]
    · intro u rest hq
      simp [send_rendezvous_finish, hd, hq]
    · intro hq
      simp [send_rendezvous_finish, hd, hq]
  · intro hd
    simp [send_rendezvous_finish, hd]

theorem rendezvous_send_finish_spec_witness :
    send_rendezvous_finish (⟨[4], ChannelSourceState.Destroyed, 2⟩ : ChannelState Nat) =
      (Except.error ⟨4⟩, ⟨[], ChannelSourceState.Destroyed, 2⟩)
    ∧ send_rendezvous_finish (⟨[], ChannelSourceState.Destroyed, 2⟩ : ChannelState Nat) =
      (Except.ok (), ⟨[], ChannelSourceState.Destroyed, 2⟩)
    ∧ send_rendezvous_finish (⟨[], ChannelSourceState.NotAttached, 2⟩ : ChannelState Nat) =
      (Except.ok (), ⟨[], ChannelSourceState.NotAttached, 2⟩) := by
  refine ⟨?_, ?_, ?_⟩
  · exact ((rendezvous_send_finish_spec ⟨[4], ChannelSourceState.Destroyed, 2⟩ 4
      (Or.inr rfl)).1 rfl).1 rfl
  · exact ((rendezvous_send_finish_spec ⟨[], ChannelSourceState.Destroyed, 2⟩ 0
      (Or.inl rfl)).1 rfl).2.2 rfl
  · exact (rendezvous_send_finish_spec ⟨[], ChannelSourceState.NotAttached, 2⟩ 0
      (Or.inl rfl)).2 rfl

/-- C10 counterexample: producers A (item 10) and B (item 20) on a
rendezvous channel. A enqueues 10, the consumer pops it, B enqueues 20, the
receiver is dropped, A wakes in the disconnection branch and its pop_front
removes B's item: A's send returns Err carrying 20, another producer's item,
not A's own item 10. -/
theorem rendezvous_pop_foreign_item_counterexample :
    mrun [MLabel.enter 0, MLabel.recv, MLabel.enter 1, MLabel.disconnect,
        MLabel.wakeHandoff 0]
      ⟨⟨[], ChannelSourceState.NotAttached, 3⟩,
        [SenderPhase.start 10, SenderPhase.start 20]⟩ =
      some ⟨⟨[], ChannelSourceState.Destroyed, 2⟩,
        [SenderPhase.done (Except.error ⟨20⟩), SenderPhase.waitHandoff 20]⟩
    ∧ (⟨20⟩ : SendError Nat) ≠ ⟨10⟩ := by
  decide

lemma handoff_exit_queue_le (c : ChannelState T) :
    (handoff_exit c).2.queue.length ≤ c.queue.length := by
  rcases hd : receiver_disconnected c.source with _ | _ <;>
    rcases hq : c.queue with _ | ⟨u, rest⟩ <;>
      simp [handoff_exit, send_rendezvous_finish, hd, hq]

lemma after_capacity_wait_queue_le (c : ChannelState T) (t : T)
    (hg : ¬(c.queue.isEmpty = false ∧ receiver_disconnected c.source = false))
    (hlen : c.queue.length ≤ 1) :
    (after_capacity_wait c t).2.queue.length ≤ 1 := by
  rcases hd : receiver_disconnected c.source with _ | _
  · have hq : c.queue = [] := by
      rcases hq2 : c.queue.isEmpty with _ | _
      · exact absurd ⟨hq2, hd⟩ hg
      · exact List.isEmpty_iff.mp hq2
    simp [after_capacity_wait, send_enqueue, hd, hq]
  · simp [after_capacity_wait, send_enqueue, hd]
    exact hlen

lemma rstep_queue_le_one (l : MLabel) (m m' : MState T)
    (h : rstep l m = some m') (hlen : m.chan.queue.length ≤ 1) :
    m'.chan.queue.length ≤ 1 := by
  cases l with
  | enter i =>
      simp only [rstep] at h
      split at h
      · split at h
        · injection h with h2
          rw [← h2]
          exact hlen
        · injection h with h2
          rw [← h2]
          exact after_capacity_wait_queue_le m.chan _ (by assumption) hlen
      · exact absurd h (by simp)
  | wakeSpace i =>
      simp only [rstep] at h
      split at h
      · split at h
        · exact absurd h (by simp)
        · injection h with h2
          rw [← h2]
          exact after_capacity_wait_queue_le m.chan _ (by assumption) hlen
      · exact absurd h (by simp)
  | wakeHandoff i =>
      simp only [rstep] at h
      split at h
      · split at h
        · exact absurd h (by simp)
        · injection h with h2
          rw [← h2]
          exact le_trans (handoff_exit_queue_le m.chan) hlen
      · exact absurd h (by simp)
  | recv =>
      simp only [rstep] at h
      split at h
      · rename_i x c' evs heq
        injection h with h2
        rw [← h2]
        rcases hq : m.chan.queue with _ | ⟨y, rest⟩
        · by_cases hn : (m.chan.strong == 1) = true <;>
            simp [try_recv, hq, hn] at heq
        · simp [try_recv, hq] at heq
          obtain ⟨h1, h2', h3⟩ := heq
          rw [← h2']
          simp only [List.length_cons] at *
          have : m.chan.queue.length = rest.length + 1 := by rw [hq]; simp
          omega
      · exact absurd h (by simp)
  | disconnect =>
      simp only [rstep] at h
      injection h with h2
      rw [← h2]
      exact hlen

lemma after_capacity_wait_own (c : ChannelState T) (t t' : T)
    (hg : ¬(c.queue.isEmpty = false ∧ receiver_disconnected c.source = false))
    (hw : (after_capacity_wait c t).1 = SenderPhase.waitHandoff t') :
    (after_capacity_wait c t).2.queue = [t'] := by
  rcases hd : receiver_disconnected c.source with _ | _
  · have hq : c.queue = [] := by
      rcases hq2 : c.queue.isEmpty with _ | _
      · exact absurd ⟨hq2, hd⟩ hg
      · exact List.isEmpty_iff.mp hq2
    simp [after_capacity_wait, send_enqueue, hd, hq] at hw ⊢
    rw [hw]
  · simp [after_capacity_wait, send_enqueue, hd] at hw

lemma handoff_exit_not_waiting (c : ChannelState T) (t' : T) :
    (handoff_exit c).1 ≠ SenderPhase.waitHandoff t' := by
  rcases hd : receiver_disconnected c.source with _ | _ <;>
    rcases hq : c.queue with _ | ⟨u, rest⟩ <;>
      simp [handoff_exit, send_rendezvous_finish, hd, hq]

lemma rstep_preserves_ownInv (l : MLabel) (m m' : MState T)
    (hone : m.senders.length = 1) (h : rstep l m = some m') (hinv : ownInv m) :
    ownInv m' := by
  obtain ⟨p, hp⟩ := List.length_eq_one.mp hone
  cases l with
  | enter i =>
      simp only [rstep] at h
      split at h
      · rename_i t heq
        have hi : i = 0 := by
          rcases i with _ | j
          · rfl
          · rw [hp] at heq; simp at heq
        subst hi
        rw [hp] at heq
        simp only [List.get?_cons_zero, Option.some.injEq] at heq
        split at h
        · injection h with h2
          rw [← h2]
          intro t' ht'
          simp only [hp, List.set] at ht'
          simp at ht'
        · rename_i hguard
          injection h with h2
          rw [← h2]
          intro t' ht'
          simp only [hp, List.set, List.cons.injEq, and_true] at ht'
          right
          exact after_capacity_wait_own m.chan t t' hguard ht'
      · exact absurd h (by simp)
  | wakeSpace i =>
      simp only [rstep] at h
      split at h
      · rename_i t heq
        have hi : i = 0 := by
          rcases i with _ | j
          · rfl
          · rw [hp] at heq; simp at heq
        subst hi
        split at h
        · exact absurd h (by simp)
        · rename_i hguard
          injection h with h2
          rw [← h2]
          intro t' ht'
          simp only [hp, List.set, List.cons.injEq, and_true] at ht'
          right
          exact after_capacity_wait_own m.chan t t' hguard ht'
      · exact absurd h (by simp)
  | wakeHandoff i =>
      simp only [rstep] at h
      split at h
      · rename_i t heq
        have hi : i = 0 := by
          rcases i with _ | j
          · rfl
          · rw [hp] at heq; simp at heq
        subst hi
        split at h
        · exact absurd h (by simp)
        · injection h with h2
          rw [← h2]
          intro t' ht'
          simp only [hp, List.set, List.cons.injEq, and_true] at ht'
          exact absurd ht' (handoff_exit_not_waiting m.chan t')
      · exact absurd h (by simp)
  | recv =>
      simp only [rstep] at h
      split at h
      · rename_i x c' evs heq
        injection h with h2
        rw [← h2]
        intro t' ht'
        simp only at ht'
        rcases hinv t' ht' with hq | hq
        · by_cases hn : (m.chan.strong == 1) = true <;>
            simp [try_recv, hq, hn] at heq
        · simp [try_recv, hq] at heq
          obtain ⟨h1, h2', h3⟩ := heq
          rw [← h2']
          left
          rfl
      · exact absurd h (by simp)
  | disconnect =>
      simp only [rstep] at h
      injection h with h2
      rw [← h2]
      intro t' ht'
      simp only at ht'
      simpa using hinv t' ht'

lemma wake_handoff_own (m m' : MState T) (t : T)
    (hsend : m.senders = [SenderPhase.waitHandoff t])
    (hq : m.chan.queue = [] ∨ m.chan.queue = [t])
    (h : rstep (MLabel.wakeHandoff 0) m = some m') :
    m'.senders = [SenderPhase.done (Except.ok ())]
    ∨ m'.senders = [SenderPhase.done (Except.error ⟨t⟩)] := by
  simp only [rstep] at h
  split at h
  · split at h
    · exact absurd h (by simp)
    · injection h with h2
      rw [← h2]
      simp only [hsend, List.set]
      rcases hd : receiver_disconnected m.chan.source with _ | _
      · left
        simp [handoff_exit, send_rendezvous_finish, hd]
      · rcases hq with hq | hq
        · left
          simp [handoff_exit, send_rendezvous_finish, hd, hq]
        · right
          simp [handoff_exit, send_rendezvous_finish, hd, hq]
  · exact absurd h (by simp)

/-- C10 amended: in rendezvous mode the queue never holds more than one item
(every machine step preserves queue length ≤ 1, and a non-blocking try_send
at bound 0 enqueues only onto an empty queue); moreover, with a single
producer the disconnection-branch pop always removes that producer's own
item, so the Err carries the caller's item — with several producers the pop
removes the current front item, which the counterexample shows may belong to
another producer. -/
theorem rendezvous_single_item_spec {T : Type} :
    (∀ (l : MLabel) (m m' : MState T), rstep l m = some m' →
      m.chan.queue.length ≤ 1 → m'.chan.queue.length ≤ 1)
    ∧ (∀ (s : ChannelState T) (t : T) (s' : ChannelState T),
        try_send_enqueue 0 s t = Except.ok s' → s.queue = [])
    ∧ (∀ (l : MLabel) (m m' : MState T), m.senders.length = 1 →
        rstep l m = some m' → ownInv m → ownInv m')
    ∧ (∀ (m m' : MState T) (t : T), m.senders = [SenderPhase.waitHandoff t] →
        (m.chan.queue = [] ∨ m.chan.queue = [t]) →
        rstep (MLabel.wakeHandoff 0) m = some m' →
        m'.senders = [SenderPhase.done (Except.ok ())]
        ∨ m'.senders = [SenderPhase.done (Except.error ⟨t⟩)]) := by
  refine ⟨fun l m m' h hlen => rstep_queue_le_one l m m' h hlen, ?_,
    fun l m m' hone h hinv => rstep_preserves_ownInv l m m' hone h hinv,
    fun m m' t hsend hq h => wake_handoff_own m m' t hsend hq h⟩
  intro s t s' h
  by_cases hq : s.queue.isEmpty = false
  · rw [try_send_enqueue, if_pos ⟨Nat.zero_le _, hq⟩] at h
    exact absurd h (by simp)
  · rcases hq2 : s.queue.isEmpty with _ | _
    · exact absurd hq2 hq
    · exact List.isEmpty_iff.mp hq2

theorem rendezvous_single_item_spec_witness :
    ((⟨⟨[5], ChannelSourceState.NotAttached, 2⟩,
      [SenderPhase.waitHandoff 5]⟩ : MState Nat).chan.queue.length ≤ 1)
    ∧ (⟨[], ChannelSourceState.NotAttached, 2⟩ : ChannelState Nat).queue = []
    ∧ ownInv (⟨⟨[5], ChannelSourceState.NotAttached, 2⟩,
        [SenderPhase.waitHandoff 5]⟩ : MState Nat)
    ∧ (([SenderPhase.done (Except.ok ())] : List (SenderPhase Nat)) =
          [SenderPhase.done (Except.ok ())]
        ∨ ([SenderPhase.done (Except.ok ())] : List (SenderPhase Nat)) =
          [SenderPhase.done (Except.error ⟨5⟩)]) := by
  refine ⟨?_, ?_, ?_, ?_⟩
  · exact (rendezvous_single_item_spec (T := Nat)).1 (MLabel.enter 0)
      ⟨⟨[], ChannelSourceState.NotAttached, 2⟩, [SenderPhase.start 5]⟩
      ⟨⟨[5], ChannelSourceState.NotAttached, 2⟩, [SenderPhase.waitHandoff 5]⟩
      (by decide) (by decide)
  · exact (rendezvous_single_item_spec (T := Nat)).2.1
      ⟨[], ChannelSourceState.NotAttached, 2⟩ 7
      ⟨[7], ChannelSourceState.NotAttached, 2⟩ (by decide)
  · exact (rendezvous_single_item_spec (T := Nat)).2.2.1 (MLabel.enter 0)
      ⟨⟨[], ChannelSourceState.NotAttached, 2⟩, [SenderPhase.start 5]⟩
      ⟨⟨[5], ChannelSourceState.NotAttached, 2⟩, [SenderPhase.waitHandoff 5]⟩
      (by decide) (by decide) (by intro t ht; simp at ht)
  · exact (rendezvous_single_item_spec (T := Nat)).2.2.2
      ⟨⟨[], ChannelSourceState.Destroyed, 2⟩, [SenderPhase.waitHandoff 5]⟩
      ⟨⟨[], ChannelSourceState.Destroyed, 2⟩, [SenderPhase.done (Except.ok ())]⟩ 5
      rfl (Or.inl rfl) (by decide)
